import Mathlib

/-!
Shallow embedding of the envoy-lab rate-limiting system: the ext_authz
Authorizer (bot-token extraction, atomic dual-limit Lua script, response
shaping) and the ext_proc Usage Adjuster (correlation table, paid-status
set, refund script), together with theorems checking the specification's
claims against this embedding.
-/

namespace EnvoyLab

/-- Association-list lookup mirroring a Go map read (`m[k]`): first binding wins. -/
def mapLookup {α : Type} : List (String × α) → String → Option α
| [], _ => none
| p :: rest, k => if p.1 == k then some p.2 else mapLookup rest k

/-- Association-list deletion mirroring Go `delete(m, k)`. -/
def mapErase {α : Type} (m : List (String × α)) (k : String) : List (String × α) :=
  m.filter (fun p => !(p.1 == k))

/-- Association-list insertion mirroring Go `m[k] = v` (overwrite). -/
def mapInsert {α : Type} (m : List (String × α)) (k : String) (v : α) : List (String × α) :=
  (k, v) :: mapErase m k

/-- State of the four Redis keys the authorization script touches for one
tenant T and the current second S: `rate_limit:{T}`, `counter:{T}:{S}` with
its TTL, `usage:{T}` with its TTL, and `quota:{T}`. `none` means the key is
absent. -/
structure Store where
  rateLimitKey : Option Int
  counterKey : Option Int
  counterTTL : Option Int
  usageKey : Option Int
  usageTTL : Option Int
  quotaKey : Option Int
deriving DecidableEq

/-- Return value of the checkRateLimit Lua script:
`{allowed, reason, quota_used, quota_limit, rate_used}`. -/
structure LuaResult where
  allowed : Int
  reason : String
  quotaUsed : Int
  quotaLimit : Int
  rateUsed : Int
deriving DecidableEq

/-- Embedding of `checkRateLimitScript` (src/rate_limiter/lua_scripts.go):
reads rate limit and quota (absent denies), checks and increments the
per-second counter with a 1 s TTL, then checks and increments usage with no
TTL. Returns the updated store and the script's result tuple. -/
def checkRateLimitScript (cost : Int) (store : Store) : Store × LuaResult :=
  match store.rateLimitKey with
  | none => (store, ⟨0, "rate_exceeded", 0, 0, 0⟩)
  | some rate_limit =>
    match store.quotaKey with
    | none => (store, ⟨0, "quota_exceeded", 0, 0, 0⟩)
    | some quota_limit =>
      let quota_used := store.usageKey.getD 0
      let current_rate := store.counterKey.getD 0
      if current_rate + cost > rate_limit then
        (store, ⟨0, "rate_exceeded", quota_used, quota_limit, current_rate⟩)
      else
        let store1 := { store with counterKey := some (current_rate + cost),
                                   counterTTL := some 1 }
        if quota_used + cost > quota_limit then
          (store1, ⟨0, "quota_exceeded", quota_used, quota_limit, current_rate + cost⟩)
        else
          ({ store1 with usageKey := some (quota_used + cost) },
           ⟨1, "success", quota_used + cost, quota_limit, current_rate + cost⟩)

/-- Parsed check result, mirroring the Go `CheckResult` struct. -/
structure CheckResult where
  Allowed : Bool
  Reason : String
  QuotaUsed : Int
  QuotaLimit : Int
  RateUsed : Int
  RateLimit : Int
  RetryAfter : Int
  BotToken : String
deriving DecidableEq

/-- Embedding of `parseLuaResult`: unpacks the script tuple and fills the
hardcoded defaults (`rateLimit := 50`, retry-after 1 or 3600). -/
def parseLuaResult (r : LuaResult) (botToken : String) : CheckResult :=
  { Allowed := r.allowed == 1
    Reason := r.reason
    QuotaUsed := r.quotaUsed
    QuotaLimit := r.quotaLimit
    RateUsed := r.rateUsed
    RateLimit := 50
    RetryAfter := if r.reason == "quota_exceeded" then 3600 else 1
    BotToken := botToken }

/-- Character class `[0-9]` of the bot-token regex. -/
def isDigitChar (c : Char) : Bool := '0' ≤ c && c ≤ '9'

/-- Character class `[A-Za-z0-9_-]` of the bot-token regex. -/
def isTokenChar (c : Char) : Bool :=
  isDigitChar c || ('a' ≤ c && c ≤ 'z') || ('A' ≤ c && c ≤ 'Z') || c == '_' || c == '-'

/-- Splits a list at the first character failing `p` (greedy run of `p`). -/
def takeWhileSplit (p : Char → Bool) : List Char → List Char × List Char
| [] => ([], [])
| c :: cs =>
  if p c then
    let r := takeWhileSplit p cs
    (c :: r.1, r.2)
  else ([], c :: cs)

/-- Embedding of `extractBotToken` with `botTokenRegex =
^/bot([0-9]+:[A-Za-z0-9_-]+)/`: the greedy character-class runs make the
regex equivalent to this deterministic parser. Returns `""` on no match. -/
def extractBotToken (path : String) : String :=
  match path.data with
  | '/' :: 'b' :: 'o' :: 't' :: rest =>
    let d := takeWhileSplit isDigitChar rest
    if d.1 == [] then ""
    else
      match d.2 with
      | ':' :: rest2 =>
        let s := takeWhileSplit isTokenChar rest2
        if s.1 == [] then ""
        else
          match s.2 with
          | '/' :: _ => String.mk (d.1 ++ ':' :: s.1)
          | _ => ""
      | _ => ""
  | _ => ""

/-- An ext_authz CheckResponse: OK with injected headers, or Denied with an
HTTP status, headers, JSON body and gRPC message. -/
inductive CheckResponse where
| ok (headers : List (String × String))
| denied (httpStatus : Int) (headers : List (String × String)) (body : String)
    (grpcMessage : String)
deriving DecidableEq

/-- Whether a response is the OK (allow) variant. -/
def CheckResponse.isOk : CheckResponse → Bool
| .ok _ => true
| .denied _ _ _ _ => false

/-- Headers carried by a response (either variant). -/
def CheckResponse.headers : CheckResponse → List (String × String)
| .ok h => h
| .denied _ h _ _ => h

/-- HTTP status of a denied response (0 for the OK variant). -/
def CheckResponse.httpStatus : CheckResponse → Int
| .ok _ => 0
| .denied s _ _ _ => s

/-- JSON body of a denied response (empty for the OK variant). -/
def CheckResponse.body : CheckResponse → String
| .ok _ => ""
| .denied _ _ b _ => b

/-- Body format of `createDeniedResponse`:
`fmt.Sprintf` of error and message into a JSON object. -/
def denyBody (reason message : String) : String :=
  "\x7b\"error\": \"" ++ reason ++ "\", \"message\": \"" ++ message ++ "\"\x7d"

/-- Embedding of `createAllowedResponse`: OK with the five injected headers. -/
def createAllowedResponse (result : CheckResult) : CheckResponse :=
  .ok [("x-bot-token", result.BotToken),
       ("x-quota-remaining", toString (result.QuotaLimit - result.QuotaUsed)),
       ("x-quota-limit", toString result.QuotaLimit),
       ("x-rate-limit", toString result.RateLimit),
       ("content-type", "application/json")]

/-- Embedding of `createDeniedResponse`: reason header, retry-after only on
status 429 (3600 for quota_exceeded, else 1), content-type, JSON body. -/
def createDeniedResponse (httpStatus : Int) (reason message : String) : CheckResponse :=
  let headers := [("x-rate-limit-reason", reason)]
  let headers := headers ++
    (if httpStatus == 429 then
      [("retry-after", if reason == "quota_exceeded" then "3600" else "1")]
    else [])
  let headers := headers ++ [("content-type", "application/json")]
  .denied httpStatus headers (denyBody reason message) message

/-- Embedding of `getErrorMessage`: the fixed human text per machine reason. -/
def getErrorMessage (result : CheckResult) : String :=
  if result.Reason == "plan_not_found" then "No active subscription found for this bot"
  else if result.Reason == "subscription_expired" then "Bot subscription has expired"
  else if result.Reason == "quota_exceeded" then
    "Bot quota exceeded (" ++ toString result.QuotaUsed ++ "/" ++
      toString result.QuotaLimit ++ " requests used)"
  else if result.Reason == "rate_exceeded" then
    "Rate limit exceeded - too many requests per second"
  else "Rate limit exceeded"

/-- HTTP attributes of a Check request; the only element the Authorizer
reads is the path. -/
structure HttpAttrs where
  path : String
deriving DecidableEq

/-- Embedding of the Authorizer's `Check`: missing attributes deny 401;
a path not matching the bot-token regex denies 401; a Redis/script error
(modelled by the `scriptError` flag, the store untouched since the script is
atomic) denies 500; otherwise the script runs with cost 1 and the result is
shaped into an Allow or a 429 Deny. -/
def Check (httpAttrs : Option HttpAttrs) (scriptError : Bool) (store : Store) :
    Store × CheckResponse :=
  match httpAttrs with
  | none =>
    (store, createDeniedResponse 401 "missing_http_attributes" "No HTTP attributes found")
  | some attrs =>
    let botToken := extractBotToken attrs.path
    if botToken == "" then
      (store, createDeniedResponse 401 "invalid_bot_token" "Invalid or missing bot token in URL")
    else if scriptError then
      (store, createDeniedResponse 500 "rate_limit_error" "Internal rate limiting error")
    else
      let r := checkRateLimitScript 1 store
      let result := parseLuaResult r.2 botToken
      if result.Allowed then (r.1, createAllowedResponse result)
      else (r.1, createDeniedResponse 429 result.Reason (getErrorMessage result))

/-- The three limit headers the Adjuster stores per request
(`requestQuotas` entry value). -/
structure QuotaHeaders where
  quotaRemaining : String
  quotaLimit : String
  rateLimit : String
deriving DecidableEq

/-- In-process state of the Usage Adjuster: the two correlation maps keyed
by `x-request-id`. -/
structure UsageState where
  requestTokens : List (String × String)
  requestQuotas : List (String × QuotaHeaders)
deriving DecidableEq

/-- The usage store as seen by the Adjuster: keys `usage:{botID}` mapped to
their integer values; absent keys are absent entries. -/
abbrev UsageStore : Type := List (String × Int)

/-- Embedding of Go `strconv.Atoi` restricted to what matters here:
optional sign, then at least one decimal digit and nothing else. -/
def parseNatDigits (l : List Char) : Option Nat :=
  if !(l == []) && l.all isDigitChar then
    some (l.foldl (fun acc c => acc * 10 + (c.toNat - 48)) 0)
  else none

/-- Go-style string-to-int parse used on the `:status` header. -/
def atoi (s : String) : Option Int :=
  match s.data with
  | '+' :: rest => (parseNatDigits rest).map Int.ofNat
  | '-' :: rest => (parseNatDigits rest).map (fun n => -(n : Int))
  | l => (parseNatDigits l).map Int.ofNat

/-- Header scan of `processResponseHeaders`: folds over the headers,
updating the status on a parsable `:status` (default 200) and the request
ID on `x-request-id`; later occurrences win, as in the Go loop. -/
def extractStatusAndReqID (hdrs : List (String × String)) : Int × String :=
  hdrs.foldl
    (fun acc h =>
      if h.1 == ":status" then
        match atoi h.2 with
        | some code => (code, acc.2)
        | none => acc
      else if h.1 == "x-request-id" then (acc.1, h.2)
      else acc)
    (200, "")

/-- The paid status set built in `NewUsageTrackingService`: statuses for
which usage is not refunded. -/
def paidStatusCodes (status : Int) : Bool :=
  status == 200 || status == 201 || status == 202 || status == 204 ||
  status == 206 || status == 304

/-- Go `strings.Split(botToken, ":")[0]`: the token's part before the
first colon. -/
def botIDOf (tok : String) : String :=
  String.mk (tok.data.takeWhile (fun c => !(c == ':')))

/-- Embedding of `generateUsageKeys`: the usage key for a bot ID. -/
def generateUsageKeys (botID : String) : String := "usage:" ++ botID

/-- Embedding of `reduceUsageScript` (the refund Lua script): if the key
exists, set it to `max 0 (value - reduction)` and return `(1, newValue)`;
otherwise leave the store alone and return `(0, 0)`. -/
def reduceUsageScript (reduction : Int) (key : String) (store : UsageStore) :
    UsageStore × Int × Int :=
  match mapLookup store key with
  | some u =>
    let nu := max 0 (u - reduction)
    (mapInsert store key nu, 1, nu)
  | none => (store, 0, 0)

/-- Embedding of `processResponse`: paid statuses pass through untouched;
any other status runs the refund script once with cost 1 against
`usage:{botID}`. The second component counts refund-script executions. -/
def processResponse (botToken : String) (statusCode : Int) (store : UsageStore) :
    UsageStore × Nat :=
  if paidStatusCodes statusCode then (store, 0)
  else
    let key := generateUsageKeys (botIDOf botToken)
    ((reduceUsageScript 1 key store).1, 1)

/-- Outcome of one response-headers message: the new Adjuster state, the
new usage store, the header mutation set on the response, and the number of
refund-script executions performed. -/
structure RespHeadersOutcome where
  state : UsageState
  store : UsageStore
  respHeaders : List (String × String)
  refunds : Nat
deriving DecidableEq

/-- Embedding of `processRequestHeaders`: record the token and limit
headers under the request ID when both token and ID are present. -/
def processRequestHeaders (hdrs : List (String × String)) (st : UsageState) : UsageState :=
  let ext := hdrs.foldl
    (fun (acc : String × String × QuotaHeaders) h =>
      if h.1 == "x-bot-token" then (h.2, acc.2.1, acc.2.2)
      else if h.1 == "x-request-id" then (acc.1, h.2, acc.2.2)
      else if h.1 == "x-quota-remaining" then (acc.1, acc.2.1, { acc.2.2 with quotaRemaining := h.2 })
      else if h.1 == "x-quota-limit" then (acc.1, acc.2.1, { acc.2.2 with quotaLimit := h.2 })
      else if h.1 == "x-rate-limit" then (acc.1, acc.2.1, { acc.2.2 with rateLimit := h.2 })
      else acc)
    ("", "", ⟨"", "", ""⟩)
  let botToken := ext.1
  let requestID := ext.2.1
  if !(botToken == "") && !(requestID == "") then
    { requestTokens := mapInsert st.requestTokens requestID botToken
      requestQuotas := mapInsert st.requestQuotas requestID ext.2.2 }
  else st

/-- Embedding of `processResponseHeaders`: extract status (default 200) and
request ID, consume the correlation entries for that ID, mirror the stored
limit headers onto the response (empty strings when unknown), and refund
usage via `processResponse` when a token was recovered. -/
def processResponseHeaders (hdrs : List (String × String)) (st : UsageState)
    (store : UsageStore) : RespHeadersOutcome :=
  let ext := extractStatusAndReqID hdrs
  let statusCode := ext.1
  let requestID := ext.2
  let botToken :=
    if !(requestID == "") then (mapLookup st.requestTokens requestID).getD ""
    else ""
  let quotaHeaders :=
    if !(requestID == "") then (mapLookup st.requestQuotas requestID).getD ⟨"", "", ""⟩
    else (⟨"", "", ""⟩ : QuotaHeaders)
  let st1 :=
    if !(requestID == "") then
      { requestTokens := mapErase st.requestTokens requestID
        requestQuotas := mapErase st.requestQuotas requestID }
    else st
  let pr :=
    if !(botToken == "") then processResponse botToken statusCode store
    else (store, 0)
  { state := st1
    store := pr.1
    respHeaders := [("x-quota-remaining", quotaHeaders.quotaRemaining),
                    ("x-quota-limit", quotaHeaders.quotaLimit),
                    ("x-rate-limit", quotaHeaders.rateLimit)]
    refunds := pr.2 }

/-! Helper lemmas. -/

/-- Looking up a key just erased from an association list yields nothing. -/
theorem mapLookup_mapErase_self {α : Type} (m : List (String × α)) (k : String) :
    mapLookup (mapErase m k) k = none := by
  induction m with
  | nil => rfl
  | cons p rest ih =>
    by_cases hp : (p.1 == k) = true
    · simpa [mapErase, hp] using ih
    · simp only [mapErase, List.filter_cons, hp]
      simpa [mapLookup, hp] using ih

/-- A greedy character-class run consumes a list all of whose characters
satisfy the class. -/
theorem takeWhileSplit_all (p : Char → Bool) (l : List Char) (h : l.all p = true) :
    takeWhileSplit p l = (l, []) := by
  induction l with
  | nil => rfl
  | cons c cs ih =>
    simp only [List.all_cons, Bool.and_eq_true] at h
    simp [takeWhileSplit, h.1, ih h.2]

/-- A greedy character-class run over `l ++ c :: r` stops exactly at `c`
when all of `l` is in the class and `c` is not. -/
theorem takeWhileSplit_stop (p : Char → Bool) (l : List Char) (c : Char)
    (r : List Char) (hl : l.all p = true) (hc : p c = false) :
    takeWhileSplit p (l ++ c :: r) = (l, c :: r) := by
  induction l with
  | nil => simp [takeWhileSplit, hc]
  | cons a as ih =>
    simp only [List.all_cons, Bool.and_eq_true] at hl
    simp [takeWhileSplit, hl.1, ih hl.2]

/-! Concrete fixtures used by witnesses and counterexamples. -/

/-- A provisioned tenant 42 with rate limit 2 and quota 5 and no traffic yet. -/
def storeA : Store := ⟨some 2, none, none, none, none, some 5⟩

/-- A completely unprovisioned tenant: no keys at all. -/
def storeEmpty : Store := ⟨none, none, none, none, none, none⟩

/-- A tenant with a rate limit but no quota key. -/
def storeNoQuota : Store := ⟨some 2, none, none, none, none, none⟩

/-- A tenant whose quota is exhausted (usage 3 of quota 3, rate 5 free). -/
def storeQuotaFull : Store := ⟨some 5, none, none, some 3, none, some 3⟩

/-- Check request attributes for a well-formed bot path of tenant 42. -/
def attrsOk : Option HttpAttrs := some ⟨"/bot42:XYZ/getMe"⟩

/-- Adjuster state holding a correlation entry for request `req1`. -/
def stA : UsageState := ⟨[("req1", "42:XYZ")], [("req1", ⟨"4", "5", "50"⟩)]⟩

/-- Response headers of a failed (502) upstream response for request `req1`. -/
def respHdrsA : List (String × String) := [(":status", "502"), ("x-request-id", "req1")]

/-- A usage store where tenant 42 has 5 reserved units. -/
def usageA : UsageStore := [("usage:42", 5)]

/-! Claim theorems. -/

/-- C1 counterexample: with `rate_limit:42 = 2` provisioned, Check allows
but injects `x-rate-limit: 50` (the hardcoded default in `parseLuaResult`),
not the provisioned value rendered as `"2"`. -/
theorem rate_limit_header_counterexample :
    (Check attrsOk false storeA).2.isOk = true ∧
    mapLookup (Check attrsOk false storeA).2.headers "x-rate-limit" = some "50" ∧
    storeA.rateLimitKey = some 2 ∧
    ¬ (some "50" = some (toString (2 : Int))) := by decide

/-- C1 (amended): every Allow response injects `x-rate-limit` equal to the
constant string "50" — `parseLuaResult` hardcodes `rateLimit := 50` and the
Lua script never returns the provisioned rate limit. -/
theorem rate_limit_header_hardcoded (attrs : Option HttpAttrs) (err : Bool)
    (store st2 : Store) (hdrs : List (String × String))
    (h : Check attrs err store = (st2, CheckResponse.ok hdrs)) :
    mapLookup hdrs "x-rate-limit" = some "50" := by
  unfold Check at h
  cases attrs with
  | none => simp [createDeniedResponse] at h
  | some a =>
    dsimp only at h
    split at h
    · simp [createDeniedResponse] at h
    · split at h
      · simp [createDeniedResponse] at h
      · split at h
        · injection h with h1 h2
          injection h2 with h3
          subst h3
          simp [createAllowedResponse, mapLookup, parseLuaResult]
          rfl
        · simp [createDeniedResponse] at h

/-- C1 witness: the amended theorem applied at the concrete allow of
tenant 42. -/
theorem rate_limit_header_hardcoded_witness :
    mapLookup [("x-bot-token", "42:XYZ"), ("x-quota-remaining", "4"),
      ("x-quota-limit", "5"), ("x-rate-limit", "50"),
      ("content-type", "application/json")] "x-rate-limit" = some "50" :=
  rate_limit_header_hardcoded attrsOk false storeA
    ⟨some 2, some 1, some 1, some 1, none, some 5⟩ _ (by decide)

/-- C3: if Check returns Allow, the script incremented the per-second
counter by exactly 1 with a 1 s TTL, incremented usage by exactly 1 leaving
its TTL untouched, returned the tuple
`(allow, success, usage+cost, quota, counter+cost)`, and the response's
store state is exactly the script's post-state (so all effects precede the
Allow response). -/
theorem allow_reserves_both_counters (attrs : Option HttpAttrs) (err : Bool)
    (store st2 : Store) (hdrs : List (String × String))
    (h : Check attrs err store = (st2, CheckResponse.ok hdrs)) :
    checkRateLimitScript 1 store =
      ({ store with counterKey := some (store.counterKey.getD 0 + 1),
                    counterTTL := some 1,
                    usageKey := some (store.usageKey.getD 0 + 1) },
       ⟨1, "success", store.usageKey.getD 0 + 1, store.quotaKey.getD 0,
        store.counterKey.getD 0 + 1⟩) ∧
    store.quotaKey = some (store.quotaKey.getD 0) ∧
    st2 = (checkRateLimitScript 1 store).1 := by
  unfold Check at h
  cases attrs with
  | none => simp [createDeniedResponse] at h
  | some a =>
    dsimp only at h
    split at h
    · simp [createDeniedResponse] at h
    · split at h
      · simp [createDeniedResponse] at h
      · split at h
        case isTrue hAllow =>
          injection h with h1 h2
          obtain ⟨rlk, ck, ctl, uk, utl, qk⟩ := store
          cases rlk with
          | none => simp [checkRateLimitScript, parseLuaResult] at hAllow
          | some rl =>
            cases qk with
            | none => simp [checkRateLimitScript, parseLuaResult] at hAllow
            | some q =>
              simp only [checkRateLimitScript] at hAllow
              split at hAllow
              case isTrue => simp [parseLuaResult] at hAllow
              case isFalse hc1 =>
                split at hAllow
                case isTrue => simp [parseLuaResult] at hAllow
                case isFalse hc2 =>
                  have hscript : checkRateLimitScript 1
                      ⟨some rl, ck, ctl, uk, utl, some q⟩ =
                      (⟨some rl, some (ck.getD 0 + 1), some 1,
                        some (uk.getD 0 + 1), utl, some q⟩,
                       ⟨1, "success", uk.getD 0 + 1, q, ck.getD 0 + 1⟩) := by
                    simp only [checkRateLimitScript]
                    rw [if_neg hc1, if_neg hc2]
                  exact ⟨hscript, rfl, h1.symm⟩
        case isFalse => simp [createDeniedResponse] at h

/-- C3 witness: the allow of tenant 42 at `storeA` exhibits the reserved
counters and the success tuple. -/
theorem allow_reserves_both_counters_witness :
    checkRateLimitScript 1 storeA =
      ({ storeA with counterKey := some (storeA.counterKey.getD 0 + 1),
                     counterTTL := some 1,
                     usageKey := some (storeA.usageKey.getD 0 + 1) },
       ⟨1, "success", storeA.usageKey.getD 0 + 1, storeA.quotaKey.getD 0,
        storeA.counterKey.getD 0 + 1⟩) ∧
    storeA.quotaKey = some (storeA.quotaKey.getD 0) ∧
    (⟨some 2, some 1, some 1, some 1, none, some 5⟩ : Store) =
      (checkRateLimitScript 1 storeA).1 :=
  allow_reserves_both_counters attrsOk false storeA
    ⟨some 2, some 1, some 1, some 1, none, some 5⟩
    [("x-bot-token", "42:XYZ"), ("x-quota-remaining", "4"), ("x-quota-limit", "5"),
     ("x-rate-limit", "50"), ("content-type", "application/json")] (by decide)

/-- A denied script run never touches the usage key or its TTL. -/
theorem script_deny_keeps_usage (store : Store)
    (hA : ¬ (checkRateLimitScript 1 store).2.allowed = 1) :
    (checkRateLimitScript 1 store).1.usageKey = store.usageKey ∧
    (checkRateLimitScript 1 store).1.usageTTL = store.usageTTL := by
  unfold checkRateLimitScript at hA ⊢
  obtain ⟨rlk, ck, ctl, uk, utl, qk⟩ := store
  cases rlk with
  | none => exact ⟨rfl, rfl⟩
  | some rl =>
    cases qk with
    | none => exact ⟨rfl, rfl⟩
    | some q =>
      dsimp only at hA ⊢
      split
      case isTrue => exact ⟨rfl, rfl⟩
      case isFalse hc1 =>
        split
        case isTrue => exact ⟨rfl, rfl⟩
        case isFalse hc2 =>
          exfalso
          apply hA
          rw [if_neg hc1, if_neg hc2]

/-- C4: a Check denied with reason `rate_exceeded` or `quota_exceeded`
leaves `usage:{T}` (value and TTL) exactly as it was: no usage increment
happens in that call. -/
theorem deny_keeps_usage_unchanged (attrs : Option HttpAttrs) (err : Bool)
    (store st2 : Store) (status : Int) (hdrs : List (String × String))
    (body msg : String)
    (h : Check attrs err store = (st2, CheckResponse.denied status hdrs body msg))
    (_hr : mapLookup hdrs "x-rate-limit-reason" = some "rate_exceeded" ∨
           mapLookup hdrs "x-rate-limit-reason" = some "quota_exceeded") :
    st2.usageKey = store.usageKey ∧ st2.usageTTL = store.usageTTL := by
  unfold Check at h
  cases attrs with
  | none =>
    injection h with h1 h2
    subst h1
    exact ⟨rfl, rfl⟩
  | some a =>
    dsimp only at h
    split at h
    · injection h with h1 h2
      subst h1
      exact ⟨rfl, rfl⟩
    · split at h
      · injection h with h1 h2
        subst h1
        exact ⟨rfl, rfl⟩
      · split at h
        case isTrue => simp [createAllowedResponse] at h
        case isFalse hDeny =>
          injection h with h1 h2
          subst h1
          simp only [parseLuaResult, beq_iff_eq] at hDeny
          exact script_deny_keeps_usage store hDeny

/-- C4 witness: the quota-exhausted deny of tenant 42 leaves usage at 3. -/
theorem deny_keeps_usage_unchanged_witness :
    (⟨some 5, some 1, some 1, some 3, none, some 3⟩ : Store).usageKey =
      storeQuotaFull.usageKey ∧
    (⟨some 5, some 1, some 1, some 3, none, some 3⟩ : Store).usageTTL =
      storeQuotaFull.usageTTL :=
  deny_keeps_usage_unchanged attrsOk false storeQuotaFull
    ⟨some 5, some 1, some 1, some 3, none, some 3⟩ 429
    [("x-rate-limit-reason", "quota_exceeded"), ("retry-after", "3600"),
     ("content-type", "application/json")]
    (denyBody "quota_exceeded" "Bot quota exceeded (3/3 requests used)")
    "Bot quota exceeded (3/3 requests used)" (by decide) (Or.inr (by decide))

/-- C5: the refund script with cost 1 returns `(0, 0)` and leaves the store
unchanged when the usage key is absent; otherwise it sets the key to
`max 0 (U - 1)` and returns `(1, U')`, so usage is never set below zero. -/
theorem refund_script_bounded (key : String) (store : UsageStore) :
    (mapLookup store key = none → reduceUsageScript 1 key store = (store, 0, 0)) ∧
    (∀ u, mapLookup store key = some u →
      reduceUsageScript 1 key store =
        (mapInsert store key (max 0 (u - 1)), 1, max 0 (u - 1)) ∧
      0 ≤ max 0 (u - 1) ∧
      mapLookup (reduceUsageScript 1 key store).1 key = some (max 0 (u - 1))) := by
  constructor
  · intro h
    simp [reduceUsageScript, h]
  · intro u h
    refine ⟨by simp [reduceUsageScript, h], le_max_left 0 (u - 1), ?_⟩
    simp [reduceUsageScript, h, mapInsert, mapLookup]

/-- C5 witness: a missing key refunds nothing; a key at 5 refunds to 4. -/
theorem refund_script_bounded_witness :
    reduceUsageScript 1 "usage:9" [] = ([], 0, 0) ∧
    reduceUsageScript 1 "usage:42" usageA =
      (mapInsert usageA "usage:42" (max 0 (5 - 1)), 1, max 0 (5 - 1)) :=
  ⟨(refund_script_bounded "usage:9" []).1 (by decide),
   (((refund_script_bounded "usage:42" usageA).2 5 (by decide))).1⟩

/-- C6: a response-headers message with a paid status refunds nothing and
leaves the usage store untouched; with a non-paid status and a present
correlation entry it runs the refund script exactly once (decrement bounded
at zero), removes the entry from both correlation maps, and a duplicate
message for the same request ID refunds nothing further. -/
theorem refund_exactly_once (hdrs : List (String × String)) (st : UsageState)
    (store : UsageStore) :
    (paidStatusCodes (extractStatusAndReqID hdrs).1 = true →
       (processResponseHeaders hdrs st store).store = store ∧
       (processResponseHeaders hdrs st store).refunds = 0) ∧
    (∀ tok, paidStatusCodes (extractStatusAndReqID hdrs).1 = false →
       (extractStatusAndReqID hdrs).2 ≠ "" →
       mapLookup st.requestTokens (extractStatusAndReqID hdrs).2 = some tok →
       tok ≠ "" →
       (processResponseHeaders hdrs st store).refunds = 1 ∧
       (processResponseHeaders hdrs st store).store =
         (reduceUsageScript 1 (generateUsageKeys (botIDOf tok)) store).1 ∧
       (processResponseHeaders hdrs st store).state.requestTokens =
         mapErase st.requestTokens (extractStatusAndReqID hdrs).2 ∧
       (processResponseHeaders hdrs st store).state.requestQuotas =
         mapErase st.requestQuotas (extractStatusAndReqID hdrs).2 ∧
       mapLookup (processResponseHeaders hdrs st store).state.requestTokens
         (extractStatusAndReqID hdrs).2 = none ∧
       (processResponseHeaders hdrs (processResponseHeaders hdrs st store).state
          (processResponseHeaders hdrs st store).store).refunds = 0 ∧
       (processResponseHeaders hdrs (processResponseHeaders hdrs st store).state
          (processResponseHeaders hdrs st store).store).store =
         (processResponseHeaders hdrs st store).store) := by
  constructor
  · intro hpaid
    simp only [processResponseHeaders, processResponse, hpaid, if_true]
    constructor <;> rw [ite_self]
  · intro tok hpaid hrid hlook htok
    have hridb : ((extractStatusAndReqID hdrs).2 == "") = false :=
      beq_eq_false_iff_ne.mpr hrid
    have htokb : (tok == "") = false := beq_eq_false_iff_ne.mpr htok
    have hout : processResponseHeaders hdrs st store =
        { state := ⟨mapErase st.requestTokens (extractStatusAndReqID hdrs).2,
                    mapErase st.requestQuotas (extractStatusAndReqID hdrs).2⟩,
          store := (reduceUsageScript 1 (generateUsageKeys (botIDOf tok)) store).1,
          respHeaders := [("x-quota-remaining",
              (((mapLookup st.requestQuotas (extractStatusAndReqID hdrs).2).getD
                ⟨"", "", ""⟩)).quotaRemaining),
            ("x-quota-limit",
              (((mapLookup st.requestQuotas (extractStatusAndReqID hdrs).2).getD
                ⟨"", "", ""⟩)).quotaLimit),
            ("x-rate-limit",
              (((mapLookup st.requestQuotas (extractStatusAndReqID hdrs).2).getD
                ⟨"", "", ""⟩)).rateLimit)],
          refunds := 1 } := by
      simp [processResponseHeaders, hridb, hlook, htokb, processResponse, hpaid]
    have hlook2 : mapLookup (mapErase st.requestTokens (extractStatusAndReqID hdrs).2)
        (extractStatusAndReqID hdrs).2 = none :=
      mapLookup_mapErase_self _ _
    have hsecond : (processResponseHeaders hdrs
        (processResponseHeaders hdrs st store).state
        (processResponseHeaders hdrs st store).store).refunds = 0 ∧
        (processResponseHeaders hdrs (processResponseHeaders hdrs st store).state
          (processResponseHeaders hdrs st store).store).store =
          (processResponseHeaders hdrs st store).store := by
      rw [hout]
      constructor <;>
        simp [processResponseHeaders, hridb, hlook2]
    rw [hout] at hsecond ⊢
    exact ⟨rfl, rfl, rfl, rfl, hlook2, hsecond.1, hsecond.2⟩

/-- C6 witness: a 502 response for the correlated request `req1` of tenant
42 refunds exactly once, evicts the entry, and a duplicate refunds nothing. -/
theorem refund_exactly_once_witness :
    (processResponseHeaders respHdrsA stA usageA).refunds = 1 ∧
    (processResponseHeaders respHdrsA stA usageA).store =
      (reduceUsageScript 1 (generateUsageKeys (botIDOf "42:XYZ")) usageA).1 ∧
    (processResponseHeaders respHdrsA stA usageA).state.requestTokens =
      mapErase stA.requestTokens (extractStatusAndReqID respHdrsA).2 ∧
    (processResponseHeaders respHdrsA stA usageA).state.requestQuotas =
      mapErase stA.requestQuotas (extractStatusAndReqID respHdrsA).2 ∧
    mapLookup (processResponseHeaders respHdrsA stA usageA).state.requestTokens
      (extractStatusAndReqID respHdrsA).2 = none ∧
    (processResponseHeaders respHdrsA (processResponseHeaders respHdrsA stA usageA).state
       (processResponseHeaders respHdrsA stA usageA).store).refunds = 0 ∧
    (processResponseHeaders respHdrsA (processResponseHeaders respHdrsA stA usageA).state
       (processResponseHeaders respHdrsA stA usageA).store).store =
      (processResponseHeaders respHdrsA stA usageA).store :=
  (refund_exactly_once respHdrsA stA usageA).2 "42:XYZ" (by decide) (by decide)
    (by decide) (by decide)

/-- C7: a tenant with no `rate_limit:{T}` key is always denied 429 with
reason `rate_exceeded` and script tuple `(deny, rate_exceeded, 0, 0, 0)`;
with a rate limit but no `quota:{T}` key the deny reason is
`quota_exceeded` — no default grant in either case. -/
theorem unprovisioned_always_denied (p : String) (store : Store)
    (hp : extractBotToken p ≠ "") :
    (store.rateLimitKey = none →
       checkRateLimitScript 1 store = (store, ⟨0, "rate_exceeded", 0, 0, 0⟩) ∧
       Check (some ⟨p⟩) false store =
         (store, createDeniedResponse 429 "rate_exceeded"
           "Rate limit exceeded - too many requests per second")) ∧
    (∀ rl, store.rateLimitKey = some rl → store.quotaKey = none →
       checkRateLimitScript 1 store = (store, ⟨0, "quota_exceeded", 0, 0, 0⟩) ∧
       Check (some ⟨p⟩) false store =
         (store, createDeniedResponse 429 "quota_exceeded"
           "Bot quota exceeded (0/0 requests used)")) := by
  have hpb : (extractBotToken p == "") = false := beq_eq_false_iff_ne.mpr hp
  constructor
  · intro hrl
    have hscript : checkRateLimitScript 1 store =
        (store, ⟨0, "rate_exceeded", 0, 0, 0⟩) := by
      unfold checkRateLimitScript
      rw [hrl]
    refine ⟨hscript, ?_⟩
    simp [Check, hpb, hscript, parseLuaResult, getErrorMessage]
  · intro rl hrl hq
    have hscript : checkRateLimitScript 1 store =
        (store, ⟨0, "quota_exceeded", 0, 0, 0⟩) := by
      simp only [checkRateLimitScript, hrl, hq]
    refine ⟨hscript, ?_⟩
    simp [Check, hpb, hscript, parseLuaResult, getErrorMessage]
    rfl

/-- C7 witness: tenant 99 with no keys denies `rate_exceeded`; a tenant
with only a rate limit denies `quota_exceeded`. -/
theorem unprovisioned_always_denied_witness :
    (checkRateLimitScript 1 storeEmpty =
       (storeEmpty, ⟨0, "rate_exceeded", 0, 0, 0⟩) ∧
     Check (some ⟨"/bot99:XYZ/getMe"⟩) false storeEmpty =
       (storeEmpty, createDeniedResponse 429 "rate_exceeded"
         "Rate limit exceeded - too many requests per second")) ∧
    (checkRateLimitScript 1 storeNoQuota =
       (storeNoQuota, ⟨0, "quota_exceeded", 0, 0, 0⟩) ∧
     Check (some ⟨"/bot99:XYZ/getMe"⟩) false storeNoQuota =
       (storeNoQuota, createDeniedResponse 429 "quota_exceeded"
         "Bot quota exceeded (0/0 requests used)")) :=
  ⟨(unprovisioned_always_denied "/bot99:XYZ/getMe" storeEmpty (by decide)).1 rfl,
   (unprovisioned_always_denied "/bot99:XYZ/getMe" storeNoQuota (by decide)).2 2
     rfl rfl⟩

/-- C8: when both keys exist, the rate check passes and the quota check
fails, the script still increments the per-second counter by 1 (with a 1 s
TTL) before returning the `quota_exceeded` deny, while usage stays
unchanged: a quota-breaching request consumes one rate slot. -/
theorem quota_deny_consumes_rate_slot (store : Store) (rl q : Int)
    (h1 : store.rateLimitKey = some rl) (h2 : store.quotaKey = some q)
    (h3 : ¬ store.counterKey.getD 0 + 1 > rl)
    (h4 : store.usageKey.getD 0 + 1 > q) :
    checkRateLimitScript 1 store =
      ({ store with counterKey := some (store.counterKey.getD 0 + 1),
                    counterTTL := some 1 },
       ⟨0, "quota_exceeded", store.usageKey.getD 0, q,
        store.counterKey.getD 0 + 1⟩) := by
  simp only [checkRateLimitScript, h1, h2]
  rw [if_neg h3, if_pos h4]

/-- C8 witness: at quota 3 with usage 3 and rate 5 free, the deny still
charges the counter. -/
theorem quota_deny_consumes_rate_slot_witness :
    checkRateLimitScript 1 storeQuotaFull =
      ({ storeQuotaFull with counterKey := some (storeQuotaFull.counterKey.getD 0 + 1),
                             counterTTL := some 1 },
       ⟨0, "quota_exceeded", storeQuotaFull.usageKey.getD 0, 3,
        storeQuotaFull.counterKey.getD 0 + 1⟩) :=
  quota_deny_consumes_rate_slot storeQuotaFull 5 3 rfl rfl (by decide) (by decide)

/-- C9: every Deny response carries the machine reason in
`x-rate-limit-reason`; status 429 with `retry-after: 1` for
`rate_exceeded`, 429 with `retry-after: 3600` for `quota_exceeded`, 401
with no retry-after for `invalid_bot_token` and `missing_http_attributes`,
500 with no retry-after for `rate_limit_error`; and the JSON body carries
the fixed human text for that reason (usage/quota interpolated for
`quota_exceeded`). -/
theorem deny_response_contract (attrs : Option HttpAttrs) (err : Bool)
    (store st2 : Store) (status : Int) (hdrs : List (String × String))
    (body msg : String)
    (h : Check attrs err store = (st2, CheckResponse.denied status hdrs body msg)) :
    (mapLookup hdrs "x-rate-limit-reason" = some "rate_exceeded" →
       status = 429 ∧ mapLookup hdrs "retry-after" = some "1" ∧
       body = denyBody "rate_exceeded"
         "Rate limit exceeded - too many requests per second") ∧
    (mapLookup hdrs "x-rate-limit-reason" = some "quota_exceeded" →
       status = 429 ∧ mapLookup hdrs "retry-after" = some "3600" ∧
       body = denyBody "quota_exceeded"
         ("Bot quota exceeded (" ++ toString (checkRateLimitScript 1 store).2.quotaUsed ++
          "/" ++ toString (checkRateLimitScript 1 store).2.quotaLimit ++
          " requests used)")) ∧
    (mapLookup hdrs "x-rate-limit-reason" = some "invalid_bot_token" →
       status = 401 ∧ mapLookup hdrs "retry-after" = none ∧
       body = denyBody "invalid_bot_token" "Invalid or missing bot token in URL") ∧
    (mapLookup hdrs "x-rate-limit-reason" = some "missing_http_attributes" →
       status = 401 ∧ mapLookup hdrs "retry-after" = none ∧
       body = denyBody "missing_http_attributes" "No HTTP attributes found") ∧
    (mapLookup hdrs "x-rate-limit-reason" = some "rate_limit_error" →
       status = 500 ∧ mapLookup hdrs "retry-after" = none ∧
       body = denyBody "rate_limit_error" "Internal rate limiting error") ∧
    (mapLookup hdrs "x-rate-limit-reason" = some "rate_exceeded" ∨
     mapLookup hdrs "x-rate-limit-reason" = some "quota_exceeded" ∨
     mapLookup hdrs "x-rate-limit-reason" = some "invalid_bot_token" ∨
     mapLookup hdrs "x-rate-limit-reason" = some "missing_http_attributes" ∨
     mapLookup hdrs "x-rate-limit-reason" = some "rate_limit_error") := by
  unfold Check at h
  cases attrs with
  | none =>
    injection h with h1 h2
    simp [createDeniedResponse] at h2
    obtain ⟨e1, e2, e3, e4⟩ := h2
    subst e1; subst e2; subst e3; subst e4
    refine ⟨by decide, fun hx => ?_, by decide, by decide, by decide, by decide⟩
    exact absurd hx (by decide)
  | some a =>
    dsimp only at h
    split at h
    · injection h with h1 h2
      simp [createDeniedResponse] at h2
      obtain ⟨e1, e2, e3, e4⟩ := h2
      subst e1; subst e2; subst e3; subst e4
      refine ⟨by decide, fun hx => ?_, by decide, by decide, by decide, by decide⟩
      exact absurd hx (by decide)
    · split at h
      · injection h with h1 h2
        simp [createDeniedResponse] at h2
        obtain ⟨e1, e2, e3, e4⟩ := h2
        subst e1; subst e2; subst e3; subst e4
        refine ⟨by decide, fun hx => ?_, by decide, by decide, by decide, by decide⟩
        exact absurd hx (by decide)
      · split at h
        case isTrue => simp [createAllowedResponse] at h
        case isFalse hDeny =>
          injection h with h1 h2
          obtain ⟨rlk, ck, ctl, uk, utl, qk⟩ := store
          cases rlk with
          | none =>
            simp [checkRateLimitScript, parseLuaResult, getErrorMessage,
              createDeniedResponse] at h2
            obtain ⟨e1, e2, e3, e4⟩ := h2
            subst e1; subst e2; subst e3; subst e4
            simp only [checkRateLimitScript]
            decide
          | some rl =>
            cases qk with
            | none =>
              simp [checkRateLimitScript, parseLuaResult, getErrorMessage,
                createDeniedResponse] at h2
              obtain ⟨e1, e2, e3, e4⟩ := h2
              subst e1; subst e2; subst e3; subst e4
              simp only [checkRateLimitScript]
              decide
            | some q =>
              simp only [checkRateLimitScript] at h2
              split at h2
              case isTrue hc1 =>
                simp [parseLuaResult, getErrorMessage, createDeniedResponse] at h2
                obtain ⟨e1, e2, e3, e4⟩ := h2
                subst e1; subst e2; subst e3; subst e4
                have hs2 : (checkRateLimitScript 1
                    ⟨some rl, ck, ctl, uk, utl, some q⟩).2 =
                    ⟨0, "rate_exceeded", uk.getD 0, q, ck.getD 0⟩ := by
                  simp only [checkRateLimitScript]
                  rw [if_pos hc1]
                simp only [hs2]
                refine ⟨by decide, fun hx => ?_, by decide, by decide, by decide,
                  by decide⟩
                exact absurd hx (by decide)
              case isFalse hc1 =>
                split at h2
                case isTrue hc2 =>
                  simp [parseLuaResult, getErrorMessage, createDeniedResponse] at h2
                  obtain ⟨e1, e2, e3, e4⟩ := h2
                  subst e1; subst e2; subst e3; subst e4
                  have hs2 : (checkRateLimitScript 1
                      ⟨some rl, ck, ctl, uk, utl, some q⟩).2 =
                      ⟨0, "quota_exceeded", uk.getD 0, q, ck.getD 0 + 1⟩ := by
                    simp only [checkRateLimitScript]
                    rw [if_neg hc1, if_pos hc2]
                  simp only [hs2]
                  refine ⟨fun hx => ?_, fun _ => ⟨by decide, by decide, ?_⟩,
                          fun hx => ?_, fun hx => ?_, fun hx => ?_, by decide⟩
                  · exact absurd hx (by decide)
                  · simp
                  · exact absurd hx (by decide)
                  · exact absurd hx (by decide)
                  · exact absurd hx (by decide)
                case isFalse hc2 =>
                  simp only [checkRateLimitScript] at hDeny
                  rw [if_neg hc1, if_neg hc2] at hDeny
                  simp [parseLuaResult] at hDeny

/-- C9 witness: the contract applied at the concrete `rate_exceeded` deny
of the unprovisioned tenant. -/
theorem deny_response_contract_witness :
    (mapLookup [("x-rate-limit-reason", "rate_exceeded"), ("retry-after", "1"),
        ("content-type", "application/json")] "x-rate-limit-reason" =
          some "rate_exceeded" →
       (429 : Int) = 429 ∧
       mapLookup [("x-rate-limit-reason", "rate_exceeded"), ("retry-after", "1"),
         ("content-type", "application/json")] "retry-after" = some "1" ∧
       denyBody "rate_exceeded" "Rate limit exceeded - too many requests per second" =
         denyBody "rate_exceeded"
           "Rate limit exceeded - too many requests per second") ∧
    (mapLookup [("x-rate-limit-reason", "rate_exceeded"), ("retry-after", "1"),
        ("content-type", "application/json")] "x-rate-limit-reason" =
          some "quota_exceeded" →
       (429 : Int) = 429 ∧
       mapLookup [("x-rate-limit-reason", "rate_exceeded"), ("retry-after", "1"),
         ("content-type", "application/json")] "retry-after" = some "3600" ∧
       denyBody "rate_exceeded" "Rate limit exceeded - too many requests per second" =
         denyBody "quota_exceeded"
           ("Bot quota exceeded (" ++
            toString (checkRateLimitScript 1 storeEmpty).2.quotaUsed ++ "/" ++
            toString (checkRateLimitScript 1 storeEmpty).2.quotaLimit ++
            " requests used)")) ∧
    (mapLookup [("x-rate-limit-reason", "rate_exceeded"), ("retry-after", "1"),
        ("content-type", "application/json")] "x-rate-limit-reason" =
          some "invalid_bot_token" →
       (429 : Int) = 401 ∧
       mapLookup [("x-rate-limit-reason", "rate_exceeded"), ("retry-after", "1"),
         ("content-type", "application/json")] "retry-after" = none ∧
       denyBody "rate_exceeded" "Rate limit exceeded - too many requests per second" =
         denyBody "invalid_bot_token" "Invalid or missing bot token in URL") ∧
    (mapLookup [("x-rate-limit-reason", "rate_exceeded"), ("retry-after", "1"),
        ("content-type", "application/json")] "x-rate-limit-reason" =
          some "missing_http_attributes" →
       (429 : Int) = 401 ∧
       mapLookup [("x-rate-limit-reason", "rate_exceeded"), ("retry-after", "1"),
         ("content-type", "application/json")] "retry-after" = none ∧
       denyBody "rate_exceeded" "Rate limit exceeded - too many requests per second" =
         denyBody "missing_http_attributes" "No HTTP attributes found") ∧
    (mapLookup [("x-rate-limit-reason", "rate_exceeded"), ("retry-after", "1"),
        ("content-type", "application/json")] "x-rate-limit-reason" =
          some "rate_limit_error" →
       (429 : Int) = 500 ∧
       mapLookup [("x-rate-limit-reason", "rate_exceeded"), ("retry-after", "1"),
         ("content-type", "application/json")] "retry-after" = none ∧
       denyBody "rate_exceeded" "Rate limit exceeded - too many requests per second" =
         denyBody "rate_limit_error" "Internal rate limiting error") ∧
    (mapLookup [("x-rate-limit-reason", "rate_exceeded"), ("retry-after", "1"),
        ("content-type", "application/json")] "x-rate-limit-reason" =
          some "rate_exceeded" ∨
     mapLookup [("x-rate-limit-reason", "rate_exceeded"), ("retry-after", "1"),
        ("content-type", "application/json")] "x-rate-limit-reason" =
          some "quota_exceeded" ∨
     mapLookup [("x-rate-limit-reason", "rate_exceeded"), ("retry-after", "1"),
        ("content-type", "application/json")] "x-rate-limit-reason" =
          some "invalid_bot_token" ∨
     mapLookup [("x-rate-limit-reason", "rate_exceeded"), ("retry-after", "1"),
        ("content-type", "application/json")] "x-rate-limit-reason" =
          some "missing_http_attributes" ∨
     mapLookup [("x-rate-limit-reason", "rate_exceeded"), ("retry-after", "1"),
        ("content-type", "application/json")] "x-rate-limit-reason" =
          some "rate_limit_error") :=
  deny_response_contract (some ⟨"/bot99:XYZ/getMe"⟩) false storeEmpty storeEmpty 429
    [("x-rate-limit-reason", "rate_exceeded"), ("retry-after", "1"),
     ("content-type", "application/json")]
    (denyBody "rate_exceeded" "Rate limit exceeded - too many requests per second")
    "Rate limit exceeded - too many requests per second" (by decide)

/-- C10: a path `/bot<digits>:<secret>` with no `/` after the token is
rejected by the regex — extraction yields the empty token — and Check
denies 401 `invalid_bot_token` without running the store script (the store
is returned untouched), for any store and any script-error flag. -/
theorem token_requires_trailing_slash (d s : List Char) (err : Bool) (store : Store)
    (hd1 : d ≠ []) (hd2 : d.all isDigitChar = true)
    (hs1 : s ≠ []) (hs2 : s.all isTokenChar = true) :
    extractBotToken (String.mk ('/' :: 'b' :: 'o' :: 't' :: (d ++ ':' :: s))) = "" ∧
    Check (some ⟨String.mk ('/' :: 'b' :: 'o' :: 't' :: (d ++ ':' :: s))⟩) err store =
      (store, createDeniedResponse 401 "invalid_bot_token"
        "Invalid or missing bot token in URL") := by
  have hd : takeWhileSplit isDigitChar (d ++ ':' :: s) = (d, ':' :: s) :=
    takeWhileSplit_stop _ _ _ _ hd2 (by decide)
  have hs : takeWhileSplit isTokenChar s = (s, []) := takeWhileSplit_all _ _ hs2
  obtain ⟨d1, ds, rfl⟩ : ∃ d1 ds, d = d1 :: ds := by
    cases d with
    | nil => exact absurd rfl hd1
    | cons a b => exact ⟨a, b, rfl⟩
  obtain ⟨s1, ss, rfl⟩ : ∃ s1 ss, s = s1 :: ss := by
    cases s with
    | nil => exact absurd rfl hs1
    | cons a b => exact ⟨a, b, rfl⟩
  rw [List.cons_append] at hd
  have hext : extractBotToken (String.mk ('/' :: 'b' :: 'o' :: 't' :: d1 ::
      (ds ++ ':' :: s1 :: ss))) = "" := by
    simp [extractBotToken, hd, hs]
  constructor
  · simpa using hext
  · simp [Check, hext]

/-- C10 witness: `/bot123:ABC` — a well-formed token with no trailing
slash — is rejected with 401 `invalid_bot_token` and the store untouched. -/
theorem token_requires_trailing_slash_witness :
    extractBotToken (String.mk ('/' :: 'b' :: 'o' :: 't' ::
      (['1', '2', '3'] ++ ':' :: ['A', 'B', 'C']))) = "" ∧
    Check (some ⟨String.mk ('/' :: 'b' :: 'o' :: 't' ::
        (['1', '2', '3'] ++ ':' :: ['A', 'B', 'C']))⟩) false storeA =
      (storeA, createDeniedResponse 401 "invalid_bot_token"
        "Invalid or missing bot token in URL") :=
  token_requires_trailing_slash ['1', '2', '3'] ['A', 'B', 'C'] false storeA
    (by decide) (by decide) (by decide) (by decide)

end EnvoyLab
